import Mathlib

/-!
Verification of the client-side form flow in src/script.js: a three-stage
wizard (Snellen, Duochrome, Result) with field-presence validation, inline
error annotations, and class-based show/hide of the stage sections.

The DOM fragments the script touches are embedded explicitly: each input
element carries its value string, the list of element siblings that follow it
(where the script inserts the error span), and its input-error class; the
page state carries the three active markers, the hidden carrier inputs and
the three result text nodes.
-/

/-- One element sibling following an input element: either the error-message
span the script creates (with its text content and whether its display style
makes it visible) or some unrelated element. -/
inductive DomNode where
  | errSpan (text : String) (visible : Bool)
  | otherElem
deriving DecidableEq

/-- One input element: its value string, the element siblings following it in
document order, and whether it carries the input-error class. -/
structure InputField where
  value : String
  after : List DomNode
  inputError : Bool
deriving DecidableEq

/-- The page state touched by the script: the active class on the three stage
sections, the three user inputs, the two hidden carrier inputs of the
Duochrome stage, and the three result text nodes. -/
structure DomState where
  snellenActive : Bool
  duochromeActive : Bool
  resultActive : Bool
  rightEye : InputField
  leftEye : InputField
  duochrome : InputField
  hiddenRightEye : String
  hiddenLeftEye : String
  resultRightEye : String
  resultLeftEye : String
  resultDuochrome : String
deriving DecidableEq

/-- Reference to one of the three input elements, as passed to
validateInputs. -/
inductive FieldRef where
  | rightEye
  | leftEye
  | duochrome
deriving DecidableEq

/-- Dereference a field of the page state. -/
def getField (s : DomState) : FieldRef → InputField
  | FieldRef.rightEye => s.rightEye
  | FieldRef.leftEye => s.leftEye
  | FieldRef.duochrome => s.duochrome

/-- Replace a field of the page state. -/
def setField (s : DomState) : FieldRef → InputField → DomState
  | FieldRef.rightEye, f => { s with rightEye := f }
  | FieldRef.leftEye, f => { s with leftEye := f }
  | FieldRef.duochrome, f => { s with duochrome := f }

/-- The single validation message string of the script. -/
def validationMessage : String := "Please select a value."

/-- Embedding of createErrorMessage (script.js lines 33 to 43): if the next
element sibling is not an error-message span, a fresh span is inserted
directly after the element; then its text is set to the message, its display
style is set to block, and the input-error class is added to the element. -/
def createErrorMessage (f : InputField) (message : String) : InputField :=
  match f.after with
  | DomNode.errSpan _ _ :: rest =>
      { f with after := DomNode.errSpan message true :: rest, inputError := true }
  | l =>
      { f with after := DomNode.errSpan message true :: l, inputError := true }

/-- Embedding of removeErrorMessage (script.js lines 46 to 52): if the next
element sibling is an error-message span its display is set to none (the text
is kept), and the input-error class is removed. -/
def removeErrorMessage (f : InputField) : InputField :=
  match f.after with
  | DomNode.errSpan t _ :: rest =>
      { f with after := DomNode.errSpan t false :: rest, inputError := false }
  | l =>
      { f with after := l, inputError := false }

/-- One iteration of the forEach loop in validateInputs: an empty value gets
an error message and clears the running flag, a non-empty value gets its
error message removed. -/
def validateStep (acc : DomState × Bool) (r : FieldRef) : DomState × Bool :=
  let f := getField acc.1 r
  if f.value = "" then
    (setField acc.1 r (createErrorMessage f validationMessage), false)
  else
    (setField acc.1 r (removeErrorMessage f), acc.2)

/-- Embedding of validateInputs (script.js lines 55 to 66): walks the passed
inputs, annotating empty ones and clearing annotations of non-empty ones, and
returns whether all were non-empty. -/
def validateInputs (s : DomState) (inputs : List FieldRef) : DomState × Bool :=
  inputs.foldl validateStep (s, true)

/-- Embedding of showDuochromeTest (script.js lines 12 to 19): removes the
active class from the Snellen section, adds it to the Duochrome section, and
copies the right-eye and left-eye values into the hidden carrier inputs. -/
def showDuochromeTest (s : DomState) : DomState :=
  { s with snellenActive := false, duochromeActive := true,
           hiddenRightEye := s.rightEye.value,
           hiddenLeftEye := s.leftEye.value }

/-- Embedding of showResults (script.js lines 22 to 30): removes the active
class from the Duochrome section, adds it to the result section, and writes
the current right-eye, left-eye and duochrome values into the result text
nodes. -/
def showResults (s : DomState) : DomState :=
  { s with duochromeActive := false, resultActive := true,
           resultRightEye := s.rightEye.value,
           resultLeftEye := s.leftEye.value,
           resultDuochrome := s.duochrome.value }

/-- The inputs validated by the Snellen next-button handler. -/
def snellenFields : List FieldRef := [FieldRef.rightEye, FieldRef.leftEye]

/-- The inputs validated by the Duochrome submit handler. -/
def duochromeFields : List FieldRef := [FieldRef.duochrome]

/-- Embedding of the next-button click handler (script.js lines 69 to 73).
The second component records whether the handler called preventDefault on the
event: the handler body never does, so it is false on every path. -/
def nextButtonClick (s : DomState) : DomState × Bool :=
  let v := validateInputs s snellenFields
  (if v.2 then showDuochromeTest v.1 else v.1, false)

/-- Embedding of the duochrome-form submit handler (script.js lines 76 to
83). The second component records whether the handler called preventDefault
on the event: both branches do. -/
def duochromeSubmit (s : DomState) : DomState × Bool :=
  let v := validateInputs s duochromeFields
  if !v.2 then (v.1, true) else (showResults v.1, true)

/-- A user event on the page: editing one of the three inputs, clicking the
Snellen next button, or submitting the Duochrome form. -/
inductive Event where
  | setRightEye (v : String)
  | setLeftEye (v : String)
  | setDuochrome (v : String)
  | clickNext
  | submitDuochrome
deriving DecidableEq

/-- Modelled from the spec: the page markup (not under src/) nests each form
inside its stage section and only the section carrying the active class is
visible, so a user event can only reach elements of the active stage. Under
that guard the clickNext and submitDuochrome events run the embedded
handlers, and the edit events overwrite the value of a visible input. -/
def step (s : DomState) : Event → DomState
  | Event.setRightEye v =>
      if s.snellenActive then { s with rightEye := { s.rightEye with value := v } } else s
  | Event.setLeftEye v =>
      if s.snellenActive then { s with leftEye := { s.leftEye with value := v } } else s
  | Event.setDuochrome v =>
      if s.duochromeActive then { s with duochrome := { s.duochrome with value := v } } else s
  | Event.clickNext =>
      if s.snellenActive then (nextButtonClick s).1 else s
  | Event.submitDuochrome =>
      if s.duochromeActive then (duochromeSubmit s).1 else s

/-- An input element as the markup loads it: empty value, no following error
span, no input-error class. -/
def emptyField : InputField := { value := "", after := [], inputError := false }

/-- Modelled from the spec: the page markup (not under src/) loads with the
Snellen section active, the Duochrome and result sections inactive, all
inputs empty and unannotated, and empty carrier and result nodes. -/
def initState : DomState :=
  { snellenActive := true, duochromeActive := false, resultActive := false,
    rightEye := emptyField, leftEye := emptyField, duochrome := emptyField,
    hiddenRightEye := "", hiddenLeftEye := "",
    resultRightEye := "", resultLeftEye := "", resultDuochrome := "" }

/-- Run a list of user events from a state. -/
def run (s : DomState) (es : List Event) : DomState :=
  es.foldl step s

/-- Whether a sibling node is an error-message span. -/
def isErrSpan : DomNode → Bool
  | DomNode.errSpan _ _ => true
  | DomNode.otherElem => false

/-- Number of error-message spans among the siblings following a field. -/
def errCount (l : List DomNode) : Nat :=
  (l.filter isErrSpan).length

/-- Text and visibility of the error span directly following a field, when
there is one. -/
def errHead (f : InputField) : Option (String × Bool) :=
  match f.after with
  | DomNode.errSpan t v :: _ => some (t, v)
  | _ => none

/-- Well-formedness of the sibling list of a field: any error span sits
directly after the field (where the script inserts and looks for it), and
deeper siblings hold no error span. -/
def errWF (f : InputField) : Bool :=
  match f.after with
  | DomNode.errSpan _ _ :: rest => rest.all (fun n => !isErrSpan n)
  | l => l.all (fun n => !isErrSpan n)

/-- Number of stage sections carrying the active class. -/
def activeCount (s : DomState) : Nat :=
  (if s.snellenActive then 1 else 0) +
  (if s.duochromeActive then 1 else 0) +
  (if s.resultActive then 1 else 0)

/-- Position of the active stage in the forward order Snellen, Duochrome,
Result. -/
def stageIdx (s : DomState) : Nat :=
  if s.resultActive then 2 else if s.duochromeActive then 1 else 0

/-- The parts of the page state a validation pass may not touch: stage
classes, hidden carriers and result nodes. -/
def uiFrame (s : DomState) :
    Bool × Bool × Bool × String × String × String × String × String :=
  (s.snellenActive, s.duochromeActive, s.resultActive,
   s.hiddenRightEye, s.hiddenLeftEye,
   s.resultRightEye, s.resultLeftEye, s.resultDuochrome)

/-! Helper lemmas about the validation pass. -/

theorem createErrorMessage_value (f : InputField) (m : String) :
    (createErrorMessage f m).value = f.value := by
  unfold createErrorMessage
  split <;> rfl

theorem removeErrorMessage_value (f : InputField) :
    (removeErrorMessage f).value = f.value := by
  unfold removeErrorMessage
  split <;> rfl

theorem getField_setField_value (s : DomState) (r r' : FieldRef) (f : InputField)
    (h : f.value = (getField s r).value) :
    (getField (setField s r f) r').value = (getField s r').value := by
  cases r <;> cases r' <;> simp [getField, setField] <;> exact h

theorem validateStep_value (a : DomState × Bool) (r r' : FieldRef) :
    (getField (validateStep a r).1 r').value = (getField a.1 r').value := by
  unfold validateStep
  by_cases h : (getField a.1 r).value = "" <;>
    simp only [h, if_pos, if_neg, not_false_iff] <;>
    first
      | exact getField_setField_value a.1 r r' _ (createErrorMessage_value _ _)
      | exact getField_setField_value a.1 r r' _ (removeErrorMessage_value _)

theorem validateStep_uiFrame (a : DomState × Bool) (r : FieldRef) :
    uiFrame (validateStep a r).1 = uiFrame a.1 := by
  unfold validateStep
  by_cases h : (getField a.1 r).value = "" <;> cases r <;> simp [h, setField, uiFrame]

theorem foldl_validateStep_value (l : List FieldRef) (a : DomState × Bool) (r : FieldRef) :
    (getField (l.foldl validateStep a).1 r).value = (getField a.1 r).value := by
  induction l generalizing a with
  | nil => rfl
  | cons x xs ih =>
      rw [List.foldl_cons, ih, validateStep_value]

theorem validateInputs_value (s : DomState) (l : List FieldRef) (r : FieldRef) :
    (getField (validateInputs s l).1 r).value = (getField s r).value :=
  foldl_validateStep_value l (s, true) r

theorem foldl_validateStep_uiFrame (l : List FieldRef) (a : DomState × Bool) :
    uiFrame (l.foldl validateStep a).1 = uiFrame a.1 := by
  induction l generalizing a with
  | nil => rfl
  | cons x xs ih =>
      rw [List.foldl_cons, ih, validateStep_uiFrame]

theorem validateInputs_uiFrame (s : DomState) (l : List FieldRef) :
    uiFrame (validateInputs s l).1 = uiFrame s :=
  foldl_validateStep_uiFrame l (s, true)

theorem validateStep_snd (a : DomState × Bool) (r : FieldRef) :
    (validateStep a r).2 = (a.2 && !((getField a.1 r).value == "")) := by
  unfold validateStep
  by_cases h : (getField a.1 r).value = "" <;> simp [h]

theorem foldl_validateStep_snd (l : List FieldRef) (a : DomState × Bool) :
    (l.foldl validateStep a).2 =
      (a.2 && l.all (fun r => !((getField a.1 r).value == ""))) := by
  induction l generalizing a with
  | nil => simp
  | cons x xs ih =>
      rw [List.foldl_cons, ih]
      have hfun : (fun r => !((getField (validateStep a x).1 r).value == "")) =
          (fun r => !((getField a.1 r).value == "")) :=
        funext fun r => by rw [validateStep_value]
      rw [hfun, validateStep_snd]
      by_cases h : (getField a.1 x).value = "" <;> simp [h, Bool.and_assoc]

theorem validateInputs_snd (s : DomState) (l : List FieldRef) :
    (validateInputs s l).2 = l.all (fun r => !((getField s r).value == "")) := by
  unfold validateInputs
  rw [foldl_validateStep_snd]
  simp

theorem uiFrame_parts {s t : DomState} (h : uiFrame s = uiFrame t) :
    s.snellenActive = t.snellenActive ∧ s.duochromeActive = t.duochromeActive ∧
    s.resultActive = t.resultActive ∧ s.hiddenRightEye = t.hiddenRightEye ∧
    s.hiddenLeftEye = t.hiddenLeftEye ∧ s.resultRightEye = t.resultRightEye ∧
    s.resultLeftEye = t.resultLeftEye ∧ s.resultDuochrome = t.resultDuochrome := by
  unfold uiFrame at h
  simpa [Prod.mk.injEq] using h

theorem activeCount_snellen (s : DomState) (hc : activeCount s = 1)
    (hs : s.snellenActive = true) :
    s.duochromeActive = false ∧ s.resultActive = false := by
  cases hd : s.duochromeActive <;> cases hr : s.resultActive <;>
    simp [activeCount, hs, hd, hr] at hc ⊢

theorem activeCount_duochrome (s : DomState) (hc : activeCount s = 1)
    (hd : s.duochromeActive = true) :
    s.snellenActive = false ∧ s.resultActive = false := by
  cases hs : s.snellenActive <;> cases hr : s.resultActive <;>
    simp [activeCount, hs, hd, hr] at hc ⊢

theorem activeCount_result (s : DomState) (hc : activeCount s = 1)
    (hr : s.resultActive = true) :
    s.snellenActive = false ∧ s.duochromeActive = false := by
  cases hs : s.snellenActive <;> cases hd : s.duochromeActive <;>
    simp [activeCount, hs, hd, hr] at hc ⊢

theorem nextButtonClick_fst (s : DomState) :
    (nextButtonClick s).1 =
      if (validateInputs s snellenFields).2 then
        showDuochromeTest (validateInputs s snellenFields).1
      else (validateInputs s snellenFields).1 := rfl

theorem duochromeSubmit_fst (s : DomState) :
    (duochromeSubmit s).1 =
      if (validateInputs s duochromeFields).2 then
        showResults (validateInputs s duochromeFields).1
      else (validateInputs s duochromeFields).1 := by
  unfold duochromeSubmit
  by_cases h : (validateInputs s duochromeFields).2 <;> simp [h]

/-- Reachable-state invariant: exactly one stage section is active, and while
the Duochrome stage is active the hidden carrier inputs agree with the
right-eye and left-eye values. -/
def ReachInv (s : DomState) : Prop :=
  activeCount s = 1 ∧
  (s.duochromeActive = true →
    s.hiddenRightEye = s.rightEye.value ∧ s.hiddenLeftEye = s.leftEye.value)

theorem inv_init : ReachInv initState :=
  ⟨rfl, fun h => by simp [initState] at h⟩

theorem inv_step (s : DomState) (e : Event) (h : ReachInv s) : ReachInv (step s e) := by
  obtain ⟨hc, hh⟩ := h
  cases e with
  | setRightEye v =>
      by_cases hs : s.snellenActive = true
      · obtain ⟨hd, hr⟩ := activeCount_snellen s hc hs
        refine ⟨by simpa [step, hs, activeCount] using hc, ?_⟩
        intro hdt
        simp [step, hs, hd] at hdt
      · simp only [step, if_neg hs]
        exact ⟨hc, hh⟩
  | setLeftEye v =>
      by_cases hs : s.snellenActive = true
      · obtain ⟨hd, hr⟩ := activeCount_snellen s hc hs
        refine ⟨by simpa [step, hs, activeCount] using hc, ?_⟩
        intro hdt
        simp [step, hs, hd] at hdt
      · simp only [step, if_neg hs]
        exact ⟨hc, hh⟩
  | setDuochrome v =>
      by_cases hd : s.duochromeActive = true
      · refine ⟨by simpa [step, hd, activeCount] using hc, ?_⟩
        intro _
        simpa [step, hd] using hh hd
      · simp only [step, if_neg hd]
        exact ⟨hc, hh⟩
  | clickNext =>
      by_cases hs : s.snellenActive = true
      · obtain ⟨hd, hr⟩ := activeCount_snellen s hc hs
        obtain ⟨f1, f2, f3, f4, f5, f6, f7, f8⟩ :=
          uiFrame_parts (validateInputs_uiFrame s snellenFields)
        simp only [step, if_pos hs, nextButtonClick_fst]
        by_cases hv : (validateInputs s snellenFields).2 = true
        · simp only [if_pos hv]
          refine ⟨?_, fun _ => ⟨rfl, rfl⟩⟩
          simp [activeCount, showDuochromeTest, f3, hr]
        · simp only [if_neg hv]
          refine ⟨?_, ?_⟩
          · simpa [activeCount, f1, f2, f3] using hc
          · intro hdt
            rw [f2, hd] at hdt
            simp at hdt
      · simp only [step, if_neg hs]
        exact ⟨hc, hh⟩
  | submitDuochrome =>
      by_cases hd : s.duochromeActive = true
      · obtain ⟨hs, hr⟩ := activeCount_duochrome s hc hd
        obtain ⟨f1, f2, f3, f4, f5, f6, f7, f8⟩ :=
          uiFrame_parts (validateInputs_uiFrame s duochromeFields)
        simp only [step, if_pos hd, duochromeSubmit_fst]
        by_cases hv : (validateInputs s duochromeFields).2 = true
        · simp only [if_pos hv]
          refine ⟨?_, ?_⟩
          · simp [activeCount, showResults, f1, hs]
          · intro hdt
            simp [showResults] at hdt
        · simp only [if_neg hv]
          refine ⟨?_, ?_⟩
          · simpa [activeCount, f1, f2, f3] using hc
          · intro _
            have hre : (validateInputs s duochromeFields).1.rightEye.value = s.rightEye.value :=
              validateInputs_value s duochromeFields FieldRef.rightEye
            have hle : (validateInputs s duochromeFields).1.leftEye.value = s.leftEye.value :=
              validateInputs_value s duochromeFields FieldRef.leftEye
            rw [f4, f5, hre, hle]
            exact hh hd
      · simp only [step, if_neg hd]
        exact ⟨hc, hh⟩

theorem inv_run (es : List Event) (s : DomState) (h : ReachInv s) : ReachInv (run s es) := by
  induction es generalizing s with
  | nil => exact h
  | cons e es ih => exact ih (step s e) (inv_step s e h)

theorem stageIdx_step (s : DomState) (e : Event) : stageIdx s ≤ stageIdx (step s e) := by
  cases e with
  | setRightEye v =>
      by_cases hs : s.snellenActive = true <;> simp [step, hs, stageIdx]
  | setLeftEye v =>
      by_cases hs : s.snellenActive = true <;> simp [step, hs, stageIdx]
  | setDuochrome v =>
      by_cases hd : s.duochromeActive = true <;> simp [step, hd, stageIdx]
  | clickNext =>
      by_cases hs : s.snellenActive = true
      · obtain ⟨f1, f2, f3, f4, f5, f6, f7, f8⟩ :=
          uiFrame_parts (validateInputs_uiFrame s snellenFields)
        simp only [step, if_pos hs, nextButtonClick_fst]
        by_cases hv : (validateInputs s snellenFields).2 = true
        · simp only [if_pos hv]
          cases hr : s.resultActive <;> cases hd : s.duochromeActive <;>
            simp [stageIdx, showDuochromeTest, f3, hr, hd]
        · simp [if_neg hv, stageIdx, f2, f3]
      · simp [step, hs]
  | submitDuochrome =>
      by_cases hd : s.duochromeActive = true
      · obtain ⟨f1, f2, f3, f4, f5, f6, f7, f8⟩ :=
          uiFrame_parts (validateInputs_uiFrame s duochromeFields)
        simp only [step, if_pos hd, duochromeSubmit_fst]
        by_cases hv : (validateInputs s duochromeFields).2 = true
        · simp only [if_pos hv]
          cases hr : s.resultActive <;> simp [stageIdx, showResults, hr, hd]
        · simp [if_neg hv, stageIdx, f2, f3]
      · simp [step, hd]

theorem stageIdx_run (es : List Event) (s : DomState) :
    stageIdx s ≤ stageIdx (run s es) := by
  induction es generalizing s with
  | nil => exact le_refl _
  | cons e es ih => exact le_trans (stageIdx_step s e) (ih (step s e))

theorem step_frozen (s : DomState) (e : Event) (h : ReachInv s)
    (hr : s.resultActive = true) : step s e = s := by
  obtain ⟨hs, hd⟩ := activeCount_result s h.1 hr
  cases e <;> simp [step, hs, hd]

theorem run_frozen (es : List Event) (s : DomState) (h : ReachInv s)
    (hr : s.resultActive = true) : run s es = s := by
  induction es with
  | nil => rfl
  | cons e es ih =>
      show run (step s e) es = s
      rw [step_frozen s e h hr]
      exact ih

theorem run_append (s : DomState) (es es' : List Event) :
    run s (es ++ es') = run (run s es) es' :=
  List.foldl_append step s es es'

theorem errHead_create (f : InputField) (m : String) :
    errHead (createErrorMessage f m) = some (m, true) := by
  obtain ⟨fv, fa, fe⟩ := f
  cases fa with
  | nil => rfl
  | cons n rest => cases n <;> rfl

theorem create_inputError (f : InputField) (m : String) :
    (createErrorMessage f m).inputError = true := by
  unfold createErrorMessage
  split <;> rfl

theorem remove_inputError (f : InputField) :
    (removeErrorMessage f).inputError = false := by
  unfold removeErrorMessage
  split <;> rfl

theorem errHead_remove (f : InputField) :
    errHead (removeErrorMessage f) =
      Option.map (fun p : String × Bool => (p.1, false)) (errHead f) := by
  obtain ⟨fv, fa, fe⟩ := f
  cases fa with
  | nil => rfl
  | cons n rest => cases n <;> rfl

theorem errHead_value_update (f : InputField) (v : String) :
    errHead { f with value := v } = errHead f := rfl

/-! Claim theorems. -/

/-- C4: every submit event on the Duochrome form, whether the duochrome field
is valid or empty, has its default form-submission behavior suppressed: the
handler calls preventDefault on both branches, so no real submission or page
navigation ever occurs from this form. -/
theorem duochromeSubmit_always_preventsDefault (s : DomState) :
    (duochromeSubmit s).2 = true := by
  unfold duochromeSubmit
  by_cases h : (validateInputs s duochromeFields).2 <;> simp [h]

/-- C5: in every state reachable from the initial page-load state by any
sequence of user events, exactly one of the three stage sections carries the
active class. -/
theorem exactly_one_stage_active (es : List Event) :
    activeCount (run initState es) = 1 :=
  (inv_run es initState inv_init).1

/-- C8: stage transitions are strictly forward along the order Snellen,
Duochrome, Result: along any continuation of a reachable run the stage index
never decreases, and once the Result stage is active no further event changes
the state at all, so Result is never deactivated and no prior stage is ever
re-activated. -/
theorem stages_strictly_forward (es es' : List Event) :
    stageIdx (run initState es) ≤ stageIdx (run initState (es ++ es')) ∧
    ((run initState es).resultActive = true →
      run initState (es ++ es') = run initState es) := by
  constructor
  · rw [run_append]
    exact stageIdx_run es' (run initState es)
  · intro hr
    rw [run_append]
    exact run_frozen es' (run initState es) (inv_run es initState inv_init) hr

/-- Event sequence reaching the Result stage, used as concrete input for the
C8 witness. -/
def c8Events : List Event :=
  [Event.setRightEye "6/6", Event.setLeftEye "6/9", Event.clickNext,
   Event.setDuochrome "Red clearer", Event.submitDuochrome]

/-- Witness for C8 at a concrete run that reaches the Result stage. -/
theorem stages_strictly_forward_witness :
    (run initState c8Events).resultActive = true ∧
    run initState (c8Events ++ [Event.clickNext]) = run initState c8Events :=
  ⟨by decide, (stages_strictly_forward c8Events [Event.clickNext]).2 (by decide)⟩

/-- C10: the boolean returned by validateInputs depends only on the value
strings of the passed fields: two invocations on states whose fields hold
identical value strings return the same boolean, whatever the pre-existing
annotation nodes, annotation visibility or active-stage classes. -/
theorem validateInputs_result_depends_only_on_values (s t : DomState)
    (l : List FieldRef)
    (h : ∀ r : FieldRef, (getField s r).value = (getField t r).value) :
    (validateInputs s l).2 = (validateInputs t l).2 := by
  rw [validateInputs_snd, validateInputs_snd]
  exact congrArg l.all (funext fun r => by rw [h r])

/-- State agreeing with the initial state on all field values but differing in
annotations, the input-error class and the active stage classes. -/
def noisyState : DomState :=
  { initState with
    snellenActive := false, resultActive := true,
    rightEye := { value := "", after := [DomNode.errSpan "stale" true],
                  inputError := true },
    leftEye := { value := "", after := [DomNode.otherElem], inputError := true } }

/-- Witness for C10: the initial state and a state with extra annotations and
different stage classes yield the same validation verdict. -/
theorem validateInputs_result_depends_only_on_values_witness :
    (∀ r : FieldRef, (getField initState r).value = (getField noisyState r).value) ∧
    (validateInputs initState snellenFields).2 = (validateInputs noisyState snellenFields).2 :=
  ⟨fun r => by cases r <;> rfl,
   validateInputs_result_depends_only_on_values initState noisyState snellenFields
     (fun r => by cases r <;> rfl)⟩

/-- C1: an attempt to advance from the Snellen stage returns true exactly when
both the right-eye and left-eye values are non-empty; on success the Snellen
section loses the active class and the Duochrome section gains it (and the
carriers are written); on failure every stage class, carrier and result node
is left unchanged, so failure is signaled only through the boolean result and
the annotations, and the total handler raises no exception. -/
theorem snellen_advance_iff_both_nonempty (s : DomState) :
    ((validateInputs s snellenFields).2 = true ↔
      (s.rightEye.value ≠ "" ∧ s.leftEye.value ≠ "")) ∧
    (nextButtonClick s).1.snellenActive =
      (if (validateInputs s snellenFields).2 then false else s.snellenActive) ∧
    (nextButtonClick s).1.duochromeActive =
      (if (validateInputs s snellenFields).2 then true else s.duochromeActive) ∧
    (nextButtonClick s).1.resultActive = s.resultActive ∧
    (nextButtonClick s).1.hiddenRightEye =
      (if (validateInputs s snellenFields).2 then s.rightEye.value else s.hiddenRightEye) ∧
    (nextButtonClick s).1.hiddenLeftEye =
      (if (validateInputs s snellenFields).2 then s.leftEye.value else s.hiddenLeftEye) ∧
    (nextButtonClick s).1.resultRightEye = s.resultRightEye ∧
    (nextButtonClick s).1.resultLeftEye = s.resultLeftEye ∧
    (nextButtonClick s).1.resultDuochrome = s.resultDuochrome := by
  obtain ⟨f1, f2, f3, f4, f5, f6, f7, f8⟩ :=
    uiFrame_parts (validateInputs_uiFrame s snellenFields)
  have hre : (validateInputs s snellenFields).1.rightEye.value = s.rightEye.value :=
    validateInputs_value s snellenFields FieldRef.rightEye
  have hle : (validateInputs s snellenFields).1.leftEye.value = s.leftEye.value :=
    validateInputs_value s snellenFields FieldRef.leftEye
  refine ⟨?_, ?_⟩
  · rw [validateInputs_snd]
    simp [snellenFields, getField]
  · by_cases hv : (validateInputs s snellenFields).2 = true
    · simp [nextButtonClick_fst, hv, showDuochromeTest, f3, f6, f7, f8, hre, hle]
    · simp [nextButtonClick_fst, hv, f1, f2, f3, f4, f5, f6, f7, f8]

/-- Witness for C1, instantiated at the initial state (both fields empty, so
the attempt fails and every stage class stays put). -/
theorem snellen_advance_iff_both_nonempty_witness :
    ((validateInputs initState snellenFields).2 = true ↔
      (initState.rightEye.value ≠ "" ∧ initState.leftEye.value ≠ "")) ∧
    (nextButtonClick initState).1.snellenActive =
      (if (validateInputs initState snellenFields).2 then false else initState.snellenActive) ∧
    (nextButtonClick initState).1.duochromeActive =
      (if (validateInputs initState snellenFields).2 then true else initState.duochromeActive) ∧
    (nextButtonClick initState).1.resultActive = initState.resultActive ∧
    (nextButtonClick initState).1.hiddenRightEye =
      (if (validateInputs initState snellenFields).2 then initState.rightEye.value
       else initState.hiddenRightEye) ∧
    (nextButtonClick initState).1.hiddenLeftEye =
      (if (validateInputs initState snellenFields).2 then initState.leftEye.value
       else initState.hiddenLeftEye) ∧
    (nextButtonClick initState).1.resultRightEye = initState.resultRightEye ∧
    (nextButtonClick initState).1.resultLeftEye = initState.resultLeftEye ∧
    (nextButtonClick initState).1.resultDuochrome = initState.resultDuochrome :=
  snellen_advance_iff_both_nonempty initState

/-- C3: a successful advance from the Snellen stage writes exactly the current
right-eye and left-eye value strings into the hidden carrier fields of the
Duochrome stage. -/
theorem snellen_success_copies_carriers (s : DomState)
    (h1 : s.rightEye.value ≠ "") (h2 : s.leftEye.value ≠ "") :
    (nextButtonClick s).1.snellenActive = false ∧
    (nextButtonClick s).1.duochromeActive = true ∧
    (nextButtonClick s).1.hiddenRightEye = s.rightEye.value ∧
    (nextButtonClick s).1.hiddenLeftEye = s.leftEye.value := by
  have hv : (validateInputs s snellenFields).2 = true := by
    rw [validateInputs_snd]
    simp [snellenFields, getField, h1, h2]
  have hre : (validateInputs s snellenFields).1.rightEye.value = s.rightEye.value :=
    validateInputs_value s snellenFields FieldRef.rightEye
  have hle : (validateInputs s snellenFields).1.leftEye.value = s.leftEye.value :=
    validateInputs_value s snellenFields FieldRef.leftEye
  simp [nextButtonClick_fst, hv, showDuochromeTest, hre, hle]

/-- Snellen state with both fields filled, used as concrete input for the C3
witness. -/
def filledSnellenState : DomState :=
  { initState with
    rightEye := { emptyField with value := "6/6" },
    leftEye := { emptyField with value := "6/9" } }

/-- Witness for C3 at a concrete state with both fields filled. -/
theorem snellen_success_copies_carriers_witness :
    (filledSnellenState.rightEye.value ≠ "" ∧ filledSnellenState.leftEye.value ≠ "") ∧
    ((nextButtonClick filledSnellenState).1.snellenActive = false ∧
     (nextButtonClick filledSnellenState).1.duochromeActive = true ∧
     (nextButtonClick filledSnellenState).1.hiddenRightEye = filledSnellenState.rightEye.value ∧
     (nextButtonClick filledSnellenState).1.hiddenLeftEye = filledSnellenState.leftEye.value) :=
  ⟨⟨by decide, by decide⟩,
   snellen_success_copies_carriers filledSnellenState (by decide) (by decide)⟩

/-- C2: from any reachable state in which the Duochrome stage is active and
the duochrome field is non-empty, a successful finalize activates the Result
stage and shows, verbatim, the carried-forward right-eye and left-eye values
(the hidden carrier fields written at the Snellen to Duochrome transition)
together with the duochrome field value. -/
theorem finalize_shows_carried_values (es : List Event)
    (h1 : (run initState es).duochromeActive = true)
    (h2 : (run initState es).duochrome.value ≠ "") :
    (duochromeSubmit (run initState es)).1.resultActive = true ∧
    (duochromeSubmit (run initState es)).1.resultRightEye =
      (run initState es).hiddenRightEye ∧
    (duochromeSubmit (run initState es)).1.resultLeftEye =
      (run initState es).hiddenLeftEye ∧
    (duochromeSubmit (run initState es)).1.resultDuochrome =
      (run initState es).duochrome.value := by
  set s := run initState es with hs
  obtain ⟨hc, hh⟩ := inv_run es initState inv_init
  obtain ⟨hhr, hhl⟩ := hh h1
  have hv : (validateInputs s duochromeFields).2 = true := by
    rw [validateInputs_snd]
    simp [duochromeFields, getField, h2]
  have hre : (validateInputs s duochromeFields).1.rightEye.value = s.rightEye.value :=
    validateInputs_value s duochromeFields FieldRef.rightEye
  have hle : (validateInputs s duochromeFields).1.leftEye.value = s.leftEye.value :=
    validateInputs_value s duochromeFields FieldRef.leftEye
  have hdu : (validateInputs s duochromeFields).1.duochrome.value = s.duochrome.value :=
    validateInputs_value s duochromeFields FieldRef.duochrome
  rw [duochromeSubmit_fst, if_pos hv]
  simp only [showResults, hre, hle, hdu]
  exact ⟨trivial, hhr.symm, hhl.symm, trivial⟩

/-- Event sequence reaching the Duochrome stage with all fields filled, used
as concrete input for the C2 witness. -/
def duochromeReadyEvents : List Event :=
  [Event.setRightEye "6/6", Event.setLeftEye "6/9", Event.clickNext,
   Event.setDuochrome "Red clearer"]

/-- Witness for C2 at a concrete reachable Duochrome-stage state. -/
theorem finalize_shows_carried_values_witness :
    (run initState duochromeReadyEvents).duochromeActive = true ∧
    (run initState duochromeReadyEvents).duochrome.value ≠ "" ∧
    ((duochromeSubmit (run initState duochromeReadyEvents)).1.resultActive = true ∧
     (duochromeSubmit (run initState duochromeReadyEvents)).1.resultRightEye =
       (run initState duochromeReadyEvents).hiddenRightEye ∧
     (duochromeSubmit (run initState duochromeReadyEvents)).1.resultLeftEye =
       (run initState duochromeReadyEvents).hiddenLeftEye ∧
     (duochromeSubmit (run initState duochromeReadyEvents)).1.resultDuochrome =
       (run initState duochromeReadyEvents).duochrome.value) :=
  ⟨by decide, by decide,
   finalize_shows_carried_values duochromeReadyEvents (by decide) (by decide)⟩

theorem errCount_eq_zero_of_all (l : List DomNode)
    (h : l.all (fun n => !isErrSpan n) = true) : errCount l = 0 := by
  unfold errCount
  simp only [List.length_eq_zero, List.filter_eq_nil_iff]
  intro a ha
  have := List.all_eq_true.mp h a ha
  simpa using this

/-- C6: attaching the validation annotation to a field whose sibling list is
well formed is idempotent on the set of annotation nodes: afterwards there is
exactly one error span, it sits directly after the field, reads the single
validation message and is visible, and attaching again changes nothing (the
node is reused, never duplicated). -/
theorem error_annotation_idempotent (f : InputField) (h : errWF f = true) :
    errWF (createErrorMessage f validationMessage) = true ∧
    errCount (createErrorMessage f validationMessage).after = 1 ∧
    errHead (createErrorMessage f validationMessage) = some (validationMessage, true) ∧
    createErrorMessage (createErrorMessage f validationMessage) validationMessage =
      createErrorMessage f validationMessage := by
  obtain ⟨fv, fa, fe⟩ := f
  cases fa with
  | nil =>
      simp [createErrorMessage, errWF, errCount, errHead, isErrSpan]
  | cons n rest =>
      cases n with
      | errSpan t b =>
          simp only [errWF] at h
          refine ⟨?_, ?_, ?_, ?_⟩
          · simpa [createErrorMessage, errWF] using h
          · have h0 := errCount_eq_zero_of_all rest h
            simp [createErrorMessage, errCount, isErrSpan] at h0 ⊢
            exact h0
          · rfl
          · rfl
      | otherElem =>
          simp only [errWF] at h
          refine ⟨?_, ?_, ?_, ?_⟩
          · simpa [createErrorMessage, errWF] using h
          · have h0 := errCount_eq_zero_of_all (DomNode.otherElem :: rest) h
            simp [createErrorMessage, errCount, isErrSpan] at h0 ⊢
            exact h0
          · rfl
          · rfl

/-- Witness for C6 at a concrete unannotated field. -/
theorem error_annotation_idempotent_witness :
    errWF emptyField = true ∧
    (errWF (createErrorMessage emptyField validationMessage) = true ∧
     errCount (createErrorMessage emptyField validationMessage).after = 1 ∧
     errHead (createErrorMessage emptyField validationMessage) =
       some (validationMessage, true) ∧
     createErrorMessage (createErrorMessage emptyField validationMessage)
         validationMessage =
       createErrorMessage emptyField validationMessage) :=
  ⟨rfl, error_annotation_idempotent emptyField rfl⟩

/-- C9: the Snellen next-button click handler never calls preventDefault on
the click event, and on a failed validation its only effects are the
annotation updates of the validation pass itself: the resulting state is
exactly the validated state, whose stage classes, carrier fields and result
nodes are untouched. -/
theorem click_handler_never_preventsDefault (s : DomState) :
    (nextButtonClick s).2 = false ∧
    uiFrame (validateInputs s snellenFields).1 = uiFrame s ∧
    ((validateInputs s snellenFields).2 = false →
      (nextButtonClick s).1 = (validateInputs s snellenFields).1) := by
  refine ⟨rfl, validateInputs_uiFrame s snellenFields, ?_⟩
  intro hv
  rw [nextButtonClick_fst, hv]
  simp

/-- Witness for C9 at the initial state, where validation fails. -/
theorem click_handler_never_preventsDefault_witness :
    (validateInputs initState snellenFields).2 = false ∧
    (nextButtonClick initState).2 = false ∧
    (nextButtonClick initState).1 = (validateInputs initState snellenFields).1 :=
  ⟨by decide, (click_handler_never_preventsDefault initState).1,
   (click_handler_never_preventsDefault initState).2.2 (by decide)⟩

/-- The user fills the right-eye input with a value, leaving everything else
in place. -/
def fillRightEye (s : DomState) (v : String) : DomState :=
  { s with rightEye := { s.rightEye with value := v } }

/-- The user fills the left-eye input with a value, leaving everything else
in place. -/
def fillLeftEye (s : DomState) (v : String) : DomState :=
  { s with leftEye := { s.leftEye with value := v } }

/-- C7: after a failed Snellen advance with both fields empty, fixing exactly
one of the two fields (either the right-eye or the left-eye one) and
re-attempting the advance clears the fixed field's annotation (same node,
hidden, input-error class dropped), keeps the still-empty field's annotation
visible with the validation message, returns false, and leaves every stage
class as it was, so the transition stays blocked. -/
theorem fix_one_field_still_blocked (s : DomState) (v : String)
    (h1 : s.rightEye.value = "") (h2 : s.leftEye.value = "") (hv : v ≠ "") :
    ((validateInputs (fillRightEye (nextButtonClick s).1 v) snellenFields).2 = false ∧
     errHead (nextButtonClick (fillRightEye (nextButtonClick s).1 v)).1.rightEye =
       some (validationMessage, false) ∧
     (nextButtonClick (fillRightEye (nextButtonClick s).1 v)).1.rightEye.inputError = false ∧
     errHead (nextButtonClick (fillRightEye (nextButtonClick s).1 v)).1.leftEye =
       some (validationMessage, true) ∧
     (nextButtonClick (fillRightEye (nextButtonClick s).1 v)).1.leftEye.inputError = true ∧
     (nextButtonClick (fillRightEye (nextButtonClick s).1 v)).1.snellenActive = s.snellenActive ∧
     (nextButtonClick (fillRightEye (nextButtonClick s).1 v)).1.duochromeActive = s.duochromeActive ∧
     (nextButtonClick (fillRightEye (nextButtonClick s).1 v)).1.resultActive = s.resultActive) ∧
    ((validateInputs (fillLeftEye (nextButtonClick s).1 v) snellenFields).2 = false ∧
     errHead (nextButtonClick (fillLeftEye (nextButtonClick s).1 v)).1.leftEye =
       some (validationMessage, false) ∧
     (nextButtonClick (fillLeftEye (nextButtonClick s).1 v)).1.leftEye.inputError = false ∧
     errHead (nextButtonClick (fillLeftEye (nextButtonClick s).1 v)).1.rightEye =
       some (validationMessage, true) ∧
     (nextButtonClick (fillLeftEye (nextButtonClick s).1 v)).1.rightEye.inputError = true ∧
     (nextButtonClick (fillLeftEye (nextButtonClick s).1 v)).1.snellenActive = s.snellenActive ∧
     (nextButtonClick (fillLeftEye (nextButtonClick s).1 v)).1.duochromeActive = s.duochromeActive ∧
     (nextButtonClick (fillLeftEye (nextButtonClick s).1 v)).1.resultActive = s.resultActive) := by
  have hv1 : (validateInputs s snellenFields).2 = false := by
    rw [validateInputs_snd]
    simp [snellenFields, getField, h1]
  have hfr : (validateInputs s snellenFields).1.rightEye =
      createErrorMessage s.rightEye validationMessage := by
    simp [validateInputs, snellenFields, validateStep, getField, setField, h1, h2]
  have hfl : (validateInputs s snellenFields).1.leftEye =
      createErrorMessage s.leftEye validationMessage := by
    simp [validateInputs, snellenFields, validateStep, getField, setField, h1, h2]
  have hs1 : (nextButtonClick s).1 = (validateInputs s snellenFields).1 := by
    rw [nextButtonClick_fst, hv1]
    simp
  obtain ⟨f1, f2, f3, f4, f5, f6, f7, f8⟩ :=
    uiFrame_parts (validateInputs_uiFrame s snellenFields)
  constructor
  · set s2 := fillRightEye (nextButtonClick s).1 v with hs2def
    have hsr2 : s2.rightEye.value = v := rfl
    have hsl2 : s2.leftEye = createErrorMessage s.leftEye validationMessage := by
      rw [hs2def]
      show (nextButtonClick s).1.leftEye = _
      rw [hs1, hfl]
    have hsl2v : s2.leftEye.value = "" := by
      rw [hsl2, createErrorMessage_value, h2]
    have hv2 : (validateInputs s2 snellenFields).2 = false := by
      rw [validateInputs_snd]
      simp [snellenFields, getField, hsl2v]
    have hfr2 : (validateInputs s2 snellenFields).1.rightEye = removeErrorMessage s2.rightEye := by
      simp [validateInputs, snellenFields, validateStep, getField, setField, hsr2, hv, hsl2v]
    have hfl2 : (validateInputs s2 snellenFields).1.leftEye =
        createErrorMessage s2.leftEye validationMessage := by
      simp [validateInputs, snellenFields, validateStep, getField, setField, hsr2, hv, hsl2v]
    have hs3 : (nextButtonClick s2).1 = (validateInputs s2 snellenFields).1 := by
      rw [nextButtonClick_fst, hv2]
      simp
    obtain ⟨g1, g2, g3, g4, g5, g6, g7, g8⟩ :=
      uiFrame_parts (validateInputs_uiFrame s2 snellenFields)
    have hflag1 : s2.snellenActive = s.snellenActive := by
      rw [hs2def]
      show (nextButtonClick s).1.snellenActive = _
      rw [hs1]
      exact f1
    have hflag2 : s2.duochromeActive = s.duochromeActive := by
      rw [hs2def]
      show (nextButtonClick s).1.duochromeActive = _
      rw [hs1]
      exact f2
    have hflag3 : s2.resultActive = s.resultActive := by
      rw [hs2def]
      show (nextButtonClick s).1.resultActive = _
      rw [hs1]
      exact f3
    have hhead2 : errHead s2.rightEye = some (validationMessage, true) := by
      rw [hs2def]
      show errHead { (nextButtonClick s).1.rightEye with value := v } = _
      rw [errHead_value_update, hs1, hfr, errHead_create]
    refine ⟨hv2, ?_, ?_, ?_, ?_, ?_, ?_, ?_⟩
    · rw [hs3, hfr2, errHead_remove, hhead2]
      rfl
    · rw [hs3, hfr2, remove_inputError]
    · rw [hs3, hfl2, errHead_create]
    · rw [hs3, hfl2, create_inputError]
    · rw [hs3, g1, hflag1]
    · rw [hs3, g2, hflag2]
    · rw [hs3, g3, hflag3]
  · set s2 := fillLeftEye (nextButtonClick s).1 v with hs2def
    have hsl2 : s2.leftEye.value = v := rfl
    have hsr2 : s2.rightEye = createErrorMessage s.rightEye validationMessage := by
      rw [hs2def]
      show (nextButtonClick s).1.rightEye = _
      rw [hs1, hfr]
    have hsr2v : s2.rightEye.value = "" := by
      rw [hsr2, createErrorMessage_value, h1]
    have hv2 : (validateInputs s2 snellenFields).2 = false := by
      rw [validateInputs_snd]
      simp [snellenFields, getField, hsr2v]
    have hfr2 : (validateInputs s2 snellenFields).1.rightEye =
        createErrorMessage s2.rightEye validationMessage := by
      simp [validateInputs, snellenFields, validateStep, getField, setField, hsr2v, hsl2, hv]
    have hfl2 : (validateInputs s2 snellenFields).1.leftEye = removeErrorMessage s2.leftEye := by
      simp [validateInputs, snellenFields, validateStep, getField, setField, hsr2v, hsl2, hv]
    have hs3 : (nextButtonClick s2).1 = (validateInputs s2 snellenFields).1 := by
      rw [nextButtonClick_fst, hv2]
      simp
    obtain ⟨g1, g2, g3, g4, g5, g6, g7, g8⟩ :=
      uiFrame_parts (validateInputs_uiFrame s2 snellenFields)
    have hflag1 : s2.snellenActive = s.snellenActive := by
      rw [hs2def]
      show (nextButtonClick s).1.snellenActive = _
      rw [hs1]
      exact f1
    have hflag2 : s2.duochromeActive = s.duochromeActive := by
      rw [hs2def]
      show (nextButtonClick s).1.duochromeActive = _
      rw [hs1]
      exact f2
    have hflag3 : s2.resultActive = s.resultActive := by
      rw [hs2def]
      show (nextButtonClick s).1.resultActive = _
      rw [hs1]
      exact f3
    have hhead2 : errHead s2.leftEye = some (validationMessage, true) := by
      rw [hs2def]
      show errHead { (nextButtonClick s).1.leftEye with value := v } = _
      rw [errHead_value_update, hs1, hfl, errHead_create]
    refine ⟨hv2, ?_, ?_, ?_, ?_, ?_, ?_, ?_⟩
    · rw [hs3, hfl2, errHead_remove, hhead2]
      rfl
    · rw [hs3, hfl2, remove_inputError]
    · rw [hs3, hfr2, errHead_create]
    · rw [hs3, hfr2, create_inputError]
    · rw [hs3, g1, hflag1]
    · rw [hs3, g2, hflag2]
    · rw [hs3, g3, hflag3]

/-- Witness for C7 at the initial state with the fix value 6 over 6, covering
both the fix-right-eye and the fix-left-eye re-attempts. -/
theorem fix_one_field_still_blocked_witness :
    initState.rightEye.value = "" ∧ initState.leftEye.value = "" ∧
    ("6/6" : String) ≠ "" ∧
    (((validateInputs (fillRightEye (nextButtonClick initState).1 "6/6") snellenFields).2 = false ∧
      errHead (nextButtonClick (fillRightEye (nextButtonClick initState).1 "6/6")).1.rightEye =
        some (validationMessage, false) ∧
      (nextButtonClick (fillRightEye (nextButtonClick initState).1 "6/6")).1.rightEye.inputError = false ∧
      errHead (nextButtonClick (fillRightEye (nextButtonClick initState).1 "6/6")).1.leftEye =
        some (validationMessage, true) ∧
      (nextButtonClick (fillRightEye (nextButtonClick initState).1 "6/6")).1.leftEye.inputError = true ∧
      (nextButtonClick (fillRightEye (nextButtonClick initState).1 "6/6")).1.snellenActive =
        initState.snellenActive ∧
      (nextButtonClick (fillRightEye (nextButtonClick initState).1 "6/6")).1.duochromeActive =
        initState.duochromeActive ∧
      (nextButtonClick (fillRightEye (nextButtonClick initState).1 "6/6")).1.resultActive =
        initState.resultActive) ∧
     ((validateInputs (fillLeftEye (nextButtonClick initState).1 "6/6") snellenFields).2 = false ∧
      errHead (nextButtonClick (fillLeftEye (nextButtonClick initState).1 "6/6")).1.leftEye =
        some (validationMessage, false) ∧
      (nextButtonClick (fillLeftEye (nextButtonClick initState).1 "6/6")).1.leftEye.inputError = false ∧
      errHead (nextButtonClick (fillLeftEye (nextButtonClick initState).1 "6/6")).1.rightEye =
        some (validationMessage, true) ∧
      (nextButtonClick (fillLeftEye (nextButtonClick initState).1 "6/6")).1.rightEye.inputError = true ∧
      (nextButtonClick (fillLeftEye (nextButtonClick initState).1 "6/6")).1.snellenActive =
        initState.snellenActive ∧
      (nextButtonClick (fillLeftEye (nextButtonClick initState).1 "6/6")).1.duochromeActive =
        initState.duochromeActive ∧
      (nextButtonClick (fillLeftEye (nextButtonClick initState).1 "6/6")).1.resultActive =
        initState.resultActive)) :=
  ⟨rfl, rfl, by decide,
   fix_one_field_still_blocked initState "6/6" rfl rfl (by decide)⟩
